import Mathlib

/-!
Verification development for the dragon multi-node front-end launcher
(`src/dragon/launcher/dragon_multi_fe.py`).

The file embeds the orchestration loop of `main` as a Lean function driven
by a script of per-attempt behaviors of the external `LauncherFrontEnd`
collaborator (session construction success, the `resilient` flag, and the
result of each of the three phase calls).  The loop records an event trace
(session acquire/release, each phase call with its argument and result)
so that lifecycle and ordering properties can be stated about it.
-/

/-- Modelled from the spec: `NodeDescriptor.State` lives in
`infrastructure/node_desc.py`, which is not part of the sources here.  The
spec requires an enumeration containing `ACTIVE`, `IDLE` and at least one
failed/unreachable variant. -/
inductive NodeDescriptorState where
  | ACTIVE
  | IDLE
  | ERROR
  | DOWN
deriving DecidableEq

/-- A network configuration: a mapping from node index (a string; the
reserved front-end key is the string "f", see line 54 of the source) to a
node descriptor, of which only the `state` field matters to the loop. -/
abbrev NetConf := List (String × NodeDescriptorState)

/-- The slice of `args_map` the orchestration loop reads: lines 58 and 62
of the source read `args_map['exhaust_resources']` and
`args_map['node_count']`.  Python integers are modelled as `Int`. -/
structure ArgsMap where
  exhaust_resources : Bool
  node_count : Int
deriving DecidableEq

/-- Modelled from the spec: `LAUNCHER_SUCCESS_EXIT` and
`LAUNCHER_FAIL_EXIT` are imported from `launcher/frontend.py`, which is
not part of the sources here; the spec says only that the orchestrator
returns one of two integer exit statuses, SUCCESS or FAIL. -/
inductive ExitCode where
  | LAUNCHER_SUCCESS_EXIT
  | LAUNCHER_FAIL_EXIT
deriving DecidableEq

/-- A Python exception raised from inside the `except` handler itself and
therefore escaping `main` uncaught. -/
inductive PyError where
  /-- line 49: `fe_server.resilient` with `fe_server` never having been
  bound (construction failed on the very first attempt). -/
  | nameErrorFeServer
  /-- line 53: `net_conf.items()` with `net_conf` still `None`. -/
  | attrErrorNoneItems
deriving DecidableEq

/-- The scripted behavior of one loop iteration's `LauncherFrontEnd`:
whether `LauncherFrontEnd(args_map=args_map)` plus `__enter__` succeed,
the session's `resilient` property, and the outcome of each phase call
(`none` models the call raising an exception, `some c` models it
returning configuration `c`). -/
structure AttemptBehavior where
  constructOk : Bool
  resilient : Bool
  run_startup : Option NetConf
  run_app : Option NetConf
  run_msg_server : Option NetConf
deriving DecidableEq

/-- Observable events of a run: session acquisition and release, and the
three phase calls.  `startupCall hint result` records the `net_conf`
argument passed to `run_startup` and its result (`none` when it raised);
`appCall` and `msgCall` record their results. -/
inductive Event where
  | acquire : Event
  | release : Event
  | startupCall : Option NetConf → Option NetConf → Event
  | appCall : Option NetConf → Event
  | msgCall : Option NetConf → Event
deriving DecidableEq

/-- Outcome of the `with` block of one iteration (lines 41-44): either all
three phases returned (`success` with the final configuration), or some
phase raised (`phaseFail` carries the value of the `net_conf` variable at
the moment the exception was raised). -/
inductive AttemptOutcome where
  | success : NetConf → AttemptOutcome
  | phaseFail : Option NetConf → AttemptOutcome
deriving DecidableEq

/-- Lines 41-44 of the source: the `with LauncherFrontEnd(...)` block with
a successfully constructed session.  `net_conf` is assigned the result of
each phase call in turn; a raising call leaves it at its previous value
and skips the remaining calls; `__exit__` (release) runs on every path
out of the block. -/
def runAttempt (b : AttemptBehavior) (net_conf : Option NetConf) :
    List Event × AttemptOutcome :=
  match b.run_startup with
  | none => ([.acquire, .startupCall net_conf none, .release], .phaseFail net_conf)
  | some c1 =>
    match b.run_app with
    | none =>
      ([.acquire, .startupCall net_conf (some c1), .appCall none, .release],
        .phaseFail (some c1))
    | some c2 =>
      match b.run_msg_server with
      | none =>
        ([.acquire, .startupCall net_conf (some c1), .appCall (some c2),
          .msgCall none, .release], .phaseFail (some c2))
      | some c3 =>
        ([.acquire, .startupCall net_conf (some c1), .appCall (some c2),
          .msgCall (some c3), .release], .success c3)

/-- Lines 52-55 of the source:
`len([idx for idx, node in net_conf.items() if node.state in
[NodeDescriptor.State.ACTIVE, NodeDescriptor.State.IDLE] and idx != 'f'])`. -/
def avail_nodes (net_conf : NetConf) : Nat :=
  net_conf.countP (fun p =>
    decide ((p.2 = NodeDescriptorState.ACTIVE ∨ p.2 = NodeDescriptorState.IDLE)
      ∧ p.1 ≠ "f"))

/-- What the `except` handler decides: return `LAUNCHER_FAIL_EXIT`
(`abort`), fall through to the next loop iteration (`retry`), or itself
raise a new exception that escapes `main` (`raiseErr`). -/
inductive HandlerAction where
  | abort : HandlerAction
  | retry : HandlerAction
  | raiseErr : PyError → HandlerAction
deriving DecidableEq

/-- Lines 47-64 of the source: the `except Exception` handler.
`fe_server` is the current value of the Python variable of that name
(`none` when it was never bound); `net_conf` is the current value of the
`net_conf` variable.  Line 49 reads `fe_server.resilient` (a `NameError`
if unbound); line 53 iterates `net_conf.items()` (an `AttributeError` if
`net_conf` is `None`); lines 58-64 apply the two policy thresholds. -/
def exceptHandler (args_map : ArgsMap) (fe_server : Option Bool)
    (net_conf : Option NetConf) : HandlerAction :=
  match fe_server with
  | none => .raiseErr .nameErrorFeServer
  | some resilient =>
    if ¬resilient then .abort
    else
      match net_conf with
      | none => .raiseErr .attrErrorNoneItems
      | some conf =>
        if args_map.exhaust_resources then
          if avail_nodes conf = 0 then .abort else .retry
        else if (avail_nodes conf : Int) = args_map.node_count - 1 then .abort
        else .retry

/-- The observable result of `main`: a returned exit status, an exception
escaping `main`, or the behavior script running out while the loop would
iterate again (the real loop would go on to a further attempt). -/
inductive MainResult where
  | exitCode : ExitCode → MainResult
  | uncaught : PyError → MainResult
  | outOfFuel : MainResult
deriving DecidableEq

/-- Lines 37-72 of the source: the `while not execution_complete` loop.
The list of behaviors scripts the successive attempts; `net_conf` and
`fe_server` are the current values of the corresponding Python variables
(`fe_server` keeps its previous binding when construction fails, and is
`none` only before the first successful construction). -/
def mainLoop (args_map : ArgsMap) :
    List AttemptBehavior → Option NetConf → Option Bool →
    List Event × MainResult
  | [], _, _ => ([], .outOfFuel)
  | b :: rest, net_conf, fe_server =>
    if b.constructOk then
      match runAttempt b net_conf with
      | (evs, .success _) => (evs, .exitCode .LAUNCHER_SUCCESS_EXIT)
      | (evs, .phaseFail net_conf2) =>
        match exceptHandler args_map (some b.resilient) net_conf2 with
        | .abort => (evs, .exitCode .LAUNCHER_FAIL_EXIT)
        | .raiseErr e => (evs, .uncaught e)
        | .retry =>
          let r := mainLoop args_map rest net_conf2 (some b.resilient)
          (evs ++ r.1, r.2)
    else
      match exceptHandler args_map fe_server net_conf with
      | .abort => ([], .exitCode .LAUNCHER_FAIL_EXIT)
      | .raiseErr e => ([], .uncaught e)
      | .retry => mainLoop args_map rest net_conf fe_server

/-- Lines 16-72 of the source: `main` enters the loop with
`net_conf = None` and `fe_server` unbound (lines 34-35). -/
def DragonMultiFE.main (args_map : ArgsMap) (behaviors : List AttemptBehavior) :
    List Event × MainResult :=
  mainLoop args_map behaviors none none

/-- Event classifiers used to count occurrences in a trace. -/
def isAcquire : Event → Bool
  | .acquire => true
  | _ => false

def isRelease : Event → Bool
  | .release => true
  | _ => false

def isAppCall : Event → Bool
  | .appCall _ => true
  | _ => false

def isMsgCall : Event → Bool
  | .msgCall _ => true
  | _ => false

/-- The `net_conf` value after an event: a phase call that returned a
configuration updates it, everything else leaves it unchanged (this is
exactly the assignment pattern of lines 42-44). -/
def confAfter : Option NetConf → Event → Option NetConf
  | _, .startupCall _ (some c) => some c
  | _, .appCall (some c) => some c
  | _, .msgCall (some c) => some c
  | cur, _ => cur

/-- Check performed at each event while replaying a trace with a running
`net_conf` value: every `run_startup` call must receive the running value
as its hint. -/
def hintCheck (cur : Option NetConf) : Event → Bool
  | .startupCall h _ => decide (h = cur)
  | _ => true

/-- A trace has consistent startup hints iff, replaying it from `cur`,
every `run_startup` call receives as hint exactly the configuration
produced by the last phase call that returned before it (or the initial
value when none has). -/
def hintsOk : Option NetConf → List Event → Bool
  | _, [] => true
  | cur, e :: rest => hintCheck cur e && hintsOk (confAfter cur e) rest

/-- Recognizer for the `phaseFail` outcome. -/
def isPhaseFail : AttemptOutcome → Bool
  | .phaseFail _ => true
  | _ => false

/-- Scenario: a session whose `run_startup` returns `conf` and whose
`run_app` raises. -/
def failAppB (conf : NetConf) : AttemptBehavior :=
  ⟨true, true, some conf, none, some conf⟩

/-- Scenario: a session whose `run_startup` returns `c1`, whose `run_app`
returns `conf`, and whose `run_msg_server` raises. -/
def failMsgB (c1 conf : NetConf) : AttemptBehavior :=
  ⟨true, true, some c1, some conf, none⟩

/-- Scenario: a session on which all three phases succeed returning `c`. -/
def allOkB (c : NetConf) : AttemptBehavior :=
  ⟨true, true, some c, some c, some c⟩

/-- Scenario: `LauncherFrontEnd` construction itself raises; `rb` is the
`resilient` flag the never-constructed session would have had. -/
def cfailB (rb : Bool) : AttemptBehavior :=
  ⟨false, rb, none, none, none⟩

/-- Scenario: a resilient session whose `run_startup` raises. -/
def failStartupB : AttemptBehavior :=
  ⟨true, true, none, none, none⟩

/-- A configuration with zero healthy non-front-end nodes. -/
def confZero : NetConf := [("f", .ACTIVE), ("0", .DOWN)]

/-- A configuration with exactly one healthy non-front-end node. -/
def confOne : NetConf := [("f", .ACTIVE), ("0", .IDLE), ("1", .ERROR)]

/-- A configuration with exactly four healthy non-front-end nodes. -/
def confFour : NetConf :=
  [("f", .ACTIVE), ("0", .ACTIVE), ("1", .ACTIVE), ("2", .IDLE), ("3", .ACTIVE)]

/-- A configuration with exactly five healthy non-front-end nodes. -/
def confFive : NetConf := confFour ++ [("4", .IDLE)]

/-! ## Helper lemmas -/

lemma runAttempt_countP_release (b : AttemptBehavior) (netc : Option NetConf) :
    (runAttempt b netc).1.countP isRelease = 1 := by
  obtain ⟨co, r, s, a, m⟩ := b
  cases s <;> cases a <;> cases m <;> rfl

lemma runAttempt_countP_acquire (b : AttemptBehavior) (netc : Option NetConf) :
    (runAttempt b netc).1.countP isAcquire = 1 := by
  obtain ⟨co, r, s, a, m⟩ := b
  cases s <;> cases a <;> cases m <;> rfl

lemma runAttempt_getLast_release (b : AttemptBehavior) (netc : Option NetConf) :
    (runAttempt b netc).1.getLast? = some .release := by
  obtain ⟨co, r, s, a, m⟩ := b
  cases s <;> cases a <;> cases m <;> rfl

lemma mainLoop_countP_release_eq (args_map : ArgsMap) :
    ∀ (behaviors : List AttemptBehavior) (netc : Option NetConf) (fe : Option Bool),
      (mainLoop args_map behaviors netc fe).1.countP isRelease
        = (mainLoop args_map behaviors netc fe).1.countP isAcquire := by
  intro behaviors
  induction behaviors with
  | nil => intro netc fe; rfl
  | cons b rest ih =>
    intro netc fe
    by_cases hc : b.constructOk
    · rcases hA : runAttempt b netc with ⟨evs, out⟩
      have hrel : evs.countP isRelease = 1 := by
        have h := runAttempt_countP_release b netc; rw [hA] at h; exact h
      have hacq : evs.countP isAcquire = 1 := by
        have h := runAttempt_countP_acquire b netc; rw [hA] at h; exact h
      cases out with
      | success c => simp [mainLoop, hc, hA, hrel, hacq]
      | phaseFail n2 =>
        cases hE : exceptHandler args_map (some b.resilient) n2 with
        | abort => simp [mainLoop, hc, hA, hE, hrel, hacq]
        | raiseErr e => simp [mainLoop, hc, hA, hE, hrel, hacq]
        | retry => simp [mainLoop, hc, hA, hE, List.countP_append, hrel, hacq, ih]
    · cases hE : exceptHandler args_map fe netc with
      | abort => simp [mainLoop, hc, hE]
      | raiseErr e => simp [mainLoop, hc, hE]
      | retry => simp [mainLoop, hc, hE, ih]

lemma hintsOk_append (l1 l2 : List Event) :
    ∀ cur, hintsOk cur (l1 ++ l2)
      = (hintsOk cur l1 && hintsOk (l1.foldl confAfter cur) l2) := by
  induction l1 with
  | nil => intro cur; simp [hintsOk]
  | cons e t ih => intro cur; simp [hintsOk, ih, Bool.and_assoc]

lemma runAttempt_hintsOk (b : AttemptBehavior) (netc : Option NetConf) :
    hintsOk netc (runAttempt b netc).1 = true := by
  obtain ⟨co, r, s, a, m⟩ := b
  cases s <;> cases a <;> cases m <;>
    simp [runAttempt, hintsOk, hintCheck, confAfter]

lemma runAttempt_foldl_phaseFail (b : AttemptBehavior) (netc n2 : Option NetConf)
    (evs : List Event) (hA : runAttempt b netc = (evs, .phaseFail n2)) :
    evs.foldl confAfter netc = n2 := by
  obtain ⟨co, r, s, a, m⟩ := b
  cases s <;> cases a <;> cases m <;> simp [runAttempt] at hA <;>
    (obtain ⟨h1, h2⟩ := hA; subst h1; subst h2; simp [confAfter])

lemma mainLoop_hintsOk (args_map : ArgsMap) :
    ∀ (behaviors : List AttemptBehavior) (netc : Option NetConf) (fe : Option Bool),
      hintsOk netc (mainLoop args_map behaviors netc fe).1 = true := by
  intro behaviors
  induction behaviors with
  | nil => intro netc fe; rfl
  | cons b rest ih =>
    intro netc fe
    by_cases hc : b.constructOk
    · rcases hA : runAttempt b netc with ⟨evs, out⟩
      have hOk : hintsOk netc evs = true := by
        have h := runAttempt_hintsOk b netc; rw [hA] at h; exact h
      cases out with
      | success c => simp [mainLoop, hc, hA, hOk]
      | phaseFail n2 =>
        have hFold : evs.foldl confAfter netc = n2 :=
          runAttempt_foldl_phaseFail b netc n2 evs hA
        cases hE : exceptHandler args_map (some b.resilient) n2 with
        | abort => simp [mainLoop, hc, hA, hE, hOk]
        | raiseErr e => simp [mainLoop, hc, hA, hE, hOk]
        | retry => simp [mainLoop, hc, hA, hE, hintsOk_append, hOk, hFold, ih]
    · cases hE : exceptHandler args_map fe netc with
      | abort => simp [mainLoop, hc, hE, hintsOk]
      | raiseErr e => simp [mainLoop, hc, hE, hintsOk]
      | retry => simp [mainLoop, hc, hE, ih]

lemma exceptHandler_ne_raise (args_map : ArgsMap) (r : Bool) (conf : NetConf)
    (e : PyError) : exceptHandler args_map (some r) (some conf) ≠ .raiseErr e := by
  cases r
  · simp [exceptHandler]
  · simp [exceptHandler]
    split_ifs <;> simp

lemma runAttempt_phaseFail_some (b : AttemptBehavior) (conf : NetConf)
    (evs : List Event) (n2 : Option NetConf)
    (hA : runAttempt b (some conf) = (evs, .phaseFail n2)) : ∃ m, n2 = some m := by
  obtain ⟨co, r, s, a, m⟩ := b
  cases s <;> cases a <;> cases m <;> simp [runAttempt] at hA <;>
    (obtain ⟨h1, h2⟩ := hA; subst h2; exact ⟨_, rfl⟩)

lemma runAttempt_startupOk_phaseFail_some (b : AttemptBehavior)
    (netc : Option NetConf) (c : NetConf) (hs : b.run_startup = some c)
    (evs : List Event) (n2 : Option NetConf)
    (hA : runAttempt b netc = (evs, .phaseFail n2)) : ∃ m, n2 = some m := by
  obtain ⟨co, r, s, a, m⟩ := b
  subst hs
  cases a <;> cases m <;> simp [runAttempt] at hA <;>
    (obtain ⟨h1, h2⟩ := hA; subst h2; exact ⟨_, rfl⟩)

lemma mainLoop_some_no_uncaught (args_map : ArgsMap) :
    ∀ (behaviors : List AttemptBehavior) (conf : NetConf) (r : Bool),
      (mainLoop args_map behaviors (some conf) (some r)).2 = .outOfFuel
      ∨ (mainLoop args_map behaviors (some conf) (some r)).2
          = .exitCode .LAUNCHER_SUCCESS_EXIT
      ∨ (mainLoop args_map behaviors (some conf) (some r)).2
          = .exitCode .LAUNCHER_FAIL_EXIT := by
  intro behaviors
  induction behaviors with
  | nil => intro conf r; left; rfl
  | cons b rest ih =>
    intro conf r
    by_cases hc : b.constructOk
    · rcases hA : runAttempt b (some conf) with ⟨evs, out⟩
      cases out with
      | success c => right; left; simp [mainLoop, hc, hA]
      | phaseFail n2 =>
        obtain ⟨m, rfl⟩ := runAttempt_phaseFail_some b conf evs n2 hA
        cases hE : exceptHandler args_map (some b.resilient) (some m) with
        | abort => right; right; simp [mainLoop, hc, hA, hE]
        | raiseErr e => exact absurd hE (exceptHandler_ne_raise args_map b.resilient m e)
        | retry => simpa [mainLoop, hc, hA, hE] using ih m b.resilient
    · cases hE : exceptHandler args_map (some r) (some conf) with
      | abort => right; right; simp [mainLoop, hc, hE]
      | raiseErr e => exact absurd hE (exceptHandler_ne_raise args_map r conf e)
      | retry => simpa [mainLoop, hc, hE] using ih conf r

/-! ## Claim theorems -/

/-- Claim C1 (code bug): the spec says a phase failure under the resilient
policy with `net_conf` still null is classified with `available = 0`; the
code instead evaluates `net_conf.items()` on `None` (line 53), raising an
`AttributeError` that escapes `main`, for every `args_map`. -/
theorem c1_null_conf_raises (args_map : ArgsMap) :
    (DragonMultiFE.main args_map [failStartupB]).2
      = .uncaught .attrErrorNoneItems := rfl

/-- Claim C2: in threshold mode (`exhaust_resources = false`), after a
resilient phase failure the loop returns the failure exit status iff the
healthy non-front-end node count equals `node_count - 1`; for every other
count it retries (and, the next attempt succeeding, returns success). -/
theorem c2_threshold_abort_iff (conf c2 : NetConf) (nc : Int) :
    ((DragonMultiFE.main ⟨false, nc⟩ [failAppB conf, allOkB c2]).2
        = .exitCode .LAUNCHER_FAIL_EXIT
      ↔ (avail_nodes conf : Int) = nc - 1)
    ∧ ((avail_nodes conf : Int) ≠ nc - 1 →
      (DragonMultiFE.main ⟨false, nc⟩ [failAppB conf, allOkB c2]).2
        = .exitCode .LAUNCHER_SUCCESS_EXIT) := by
  by_cases h : (avail_nodes conf : Int) = nc - 1 <;>
    simp [DragonMultiFE.main, mainLoop, runAttempt, exceptHandler,
      failAppB, allOkB, h]

/-- Witness for C2: `node_count = 5` with five healthy nodes retries and
then succeeds. -/
theorem c2_threshold_abort_iff_witness :
    (DragonMultiFE.main ⟨false, 5⟩ [failAppB confFive, allOkB confOne]).2
      = .exitCode .LAUNCHER_SUCCESS_EXIT :=
  (c2_threshold_abort_iff confFive confOne 5).2 (by decide)

/-- Claim C5: when the session's `resilient` flag is false, any phase
failure returns the failure exit status at once, for every configuration
(even full health) and both policy modes: the classifier is never
consulted (line 49 returns before line 53 runs). -/
theorem c5_nonresilient_abort (args_map : ArgsMap) (b : AttemptBehavior)
    (rest : List AttemptBehavior) (net_conf : Option NetConf)
    (fe_server : Option Bool) (hc : b.constructOk = true)
    (hr : b.resilient = false)
    (hf : isPhaseFail (runAttempt b net_conf).2 = true) :
    (mainLoop args_map (b :: rest) net_conf fe_server).2
      = .exitCode .LAUNCHER_FAIL_EXIT := by
  rcases hA : runAttempt b net_conf with ⟨evs, out⟩
  cases out with
  | success c =>
    rw [hA] at hf
    simp [isPhaseFail] at hf
  | phaseFail n2 =>
    simp [mainLoop, hc, hA, exceptHandler, hr]

/-- Witness for C5: full health (`avail = node_count = 5`), `run_app`
fails, `resilient = false`: immediate failure exit. -/
theorem c5_nonresilient_abort_witness :
    (mainLoop ⟨false, 5⟩ [⟨true, false, some confFive, none, some confFive⟩]
        none none).2 = .exitCode .LAUNCHER_FAIL_EXIT :=
  c5_nonresilient_abort ⟨false, 5⟩
    ⟨true, false, some confFive, none, some confFive⟩ [] none none
    rfl rfl (by decide)

/-- Claim C6: in exhaust-resources mode, after a resilient phase failure
the loop returns the failure exit status iff the healthy non-front-end
node count is 0; for every count of 1 or more it retries (and, the next
attempt succeeding, returns success) — for every `node_count`, showing
the threshold is never applied in this mode. -/
theorem c6_exhaust_abort_iff (conf c2 : NetConf) (nc : Int) :
    ((DragonMultiFE.main ⟨true, nc⟩ [failAppB conf, allOkB c2]).2
        = .exitCode .LAUNCHER_FAIL_EXIT
      ↔ avail_nodes conf = 0)
    ∧ (avail_nodes conf ≠ 0 →
      (DragonMultiFE.main ⟨true, nc⟩ [failAppB conf, allOkB c2]).2
        = .exitCode .LAUNCHER_SUCCESS_EXIT) := by
  by_cases h : avail_nodes conf = 0 <;>
    simp [DragonMultiFE.main, mainLoop, runAttempt, exceptHandler,
      failAppB, allOkB, h]

/-- Witness for C6: one healthy node remains, so the loop retries and
then succeeds. -/
theorem c6_exhaust_abort_iff_witness :
    (DragonMultiFE.main ⟨true, 5⟩ [failAppB confOne, allOkB confOne]).2
      = .exitCode .LAUNCHER_SUCCESS_EXIT :=
  (c6_exhaust_abort_iff confOne confOne 5).2 (by decide)

/-- Claim C7: every `run_startup` call in any run's trace receives as its
`net_conf` hint exactly the configuration returned by the last phase call
that returned before it, and `none` when no phase has produced one. -/
theorem c7_hint_carryover (args_map : ArgsMap)
    (behaviors : List AttemptBehavior) :
    hintsOk none (DragonMultiFE.main args_map behaviors).1 = true :=
  mainLoop_hintsOk args_map behaviors none none

/-- Claim C8: every acquired session is released exactly once, the
release is the last event of the attempt (teardown runs on every exit
path of the `with` block), and over any full run releases and
acquisitions balance. -/
theorem c8_session_release (b : AttemptBehavior) (net_conf : Option NetConf)
    (args_map : ArgsMap) (behaviors : List AttemptBehavior) :
    (runAttempt b net_conf).1.countP isRelease = 1
    ∧ (runAttempt b net_conf).1.getLast? = some .release
    ∧ (DragonMultiFE.main args_map behaviors).1.countP isRelease
        = (DragonMultiFE.main args_map behaviors).1.countP isAcquire :=
  ⟨runAttempt_countP_release b net_conf, runAttempt_getLast_release b net_conf,
    mainLoop_countP_release_eq args_map behaviors none none⟩

/-- Claim C9: when session construction fails on a later iteration, the
handler consults the previous attempt's session: the run retries and
succeeds whatever `resilient` flag the never-constructed session would
have had (second conjunct: the whole run is independent of that flag),
using the prior session's `resilient = true` and the carried
configuration. -/
theorem c9_stale_resilient (args_map : ArgsMap) (conf c3 : NetConf) (rb : Bool)
    (h : exceptHandler args_map (some true) (some conf) = .retry) :
    (DragonMultiFE.main args_map [failAppB conf, cfailB rb, allOkB c3]).2
      = .exitCode .LAUNCHER_SUCCESS_EXIT
    ∧ DragonMultiFE.main args_map [failAppB conf, cfailB rb, allOkB c3]
      = DragonMultiFE.main args_map [failAppB conf, cfailB false, allOkB c3] := by
  constructor
  · simp [DragonMultiFE.main, mainLoop, runAttempt, failAppB, cfailB, allOkB, h]
  · simp [DragonMultiFE.main, mainLoop, runAttempt, failAppB, cfailB, allOkB, h]

/-- Witness for C9: one healthy node under exhaust mode gives a retrying
classification; a construction failure (whose session would have been
non-resilient) is followed by a successful attempt. -/
theorem c9_stale_resilient_witness :
    (DragonMultiFE.main ⟨true, 5⟩ [failAppB confOne, cfailB false, allOkB confOne]).2
      = .exitCode .LAUNCHER_SUCCESS_EXIT :=
  (c9_stale_resilient ⟨true, 5⟩ confOne confOne false (by decide)).1

/-- Claim C10: within one attempt, no phase after the failing one runs:
a raising `run_startup` means no `run_app` and no `run_msg_server` call
appears in the attempt's trace, and a raising `run_app` means no
`run_msg_server` call appears. -/
theorem c10_phase_order (b : AttemptBehavior) (net_conf : Option NetConf) :
    (b.run_startup = none →
      (runAttempt b net_conf).1.countP isAppCall = 0
      ∧ (runAttempt b net_conf).1.countP isMsgCall = 0)
    ∧ (∀ c1, b.run_startup = some c1 → b.run_app = none →
      (runAttempt b net_conf).1.countP isMsgCall = 0) := by
  obtain ⟨co, r, s, a, m⟩ := b
  refine ⟨fun hs => ?_, fun c1 hs ha => ?_⟩
  · subst hs
    exact ⟨rfl, rfl⟩
  · subst hs
    subst ha
    rfl

/-- Witness for C10: a failing `run_startup` produces an attempt trace
with no `run_app` and no `run_msg_server` call. -/
theorem c10_phase_order_witness :
    (runAttempt failStartupB none).1.countP isAppCall = 0
    ∧ (runAttempt failStartupB none).1.countP isMsgCall = 0 :=
  (c10_phase_order failStartupB none).1 rfl

/-- Counterexample to claim C3: this run suffers a session-construction
failure on its second attempt, yet it does not terminate with a failure
status — classification proceeds (via the previous attempt's session) and
the loop retries to success. -/
theorem c3_counterexample :
    (DragonMultiFE.main ⟨true, 5⟩
        [failMsgB confOne confOne, cfailB false, allOkB confOne]).2
      = .exitCode .LAUNCHER_SUCCESS_EXIT := by decide

/-- Claim C3 as amended: a construction failure is not treated as a
fatal, non-retryable error.  On the first attempt the handler's read of
the never-bound `fe_server` raises an error that escapes `main` (no
failure status is returned); on a later attempt the previous session's
`resilient` flag and the carried configuration are classified exactly as
for a phase failure, and the loop may retry. -/
theorem c3_construct_failure (args_map : ArgsMap) (b : AttemptBehavior)
    (rest : List AttemptBehavior) (c1 conf c3 : NetConf) (rb : Bool) :
    (b.constructOk = false →
      (DragonMultiFE.main args_map (b :: rest)).2
        = .uncaught .nameErrorFeServer)
    ∧ (exceptHandler args_map (some true) (some conf) = .retry →
      (DragonMultiFE.main args_map [failMsgB c1 conf, cfailB rb, allOkB c3]).2
        = .exitCode .LAUNCHER_SUCCESS_EXIT) := by
  constructor
  · intro hc
    simp [DragonMultiFE.main, mainLoop, hc, exceptHandler]
  · intro h
    simp [DragonMultiFE.main, mainLoop, runAttempt, failMsgB, cfailB, allOkB, h]

/-- Witness for C3 as amended: both conclusions at concrete inputs. -/
theorem c3_construct_failure_witness :
    ((DragonMultiFE.main ⟨true, 5⟩ [cfailB true]).2
        = .uncaught .nameErrorFeServer)
    ∧ ((DragonMultiFE.main ⟨true, 5⟩
          [failMsgB confZero confOne, cfailB true, allOkB confFour]).2
        = .exitCode .LAUNCHER_SUCCESS_EXIT) :=
  ⟨(c3_construct_failure ⟨true, 5⟩ (cfailB true) [] confZero confOne confFour
      true).1 rfl,
    (c3_construct_failure ⟨true, 5⟩ (cfailB true) [] confZero confOne confFour
      true).2 (by decide)⟩

/-- Counterexample to claim C4: a run in which an exception does
propagate past the orchestration loop, so `main` does not return an exit
status: construction fails on the first attempt and the handler's
`fe_server.resilient` read raises. -/
theorem c4_counterexample :
    (DragonMultiFE.main ⟨false, 5⟩ [cfailB true]).2
      = .uncaught .nameErrorFeServer := by decide

/-- Claim C4 as amended: provided the first attempt constructs its
session and its `run_startup` returns a configuration, no exception
escapes the loop on any continuation: the run either exhausts the
scripted behaviors (the loop would iterate again) or returns one of the
two exit statuses. -/
theorem c4_exit_status (args_map : ArgsMap) (b : AttemptBehavior)
    (rest : List AttemptBehavior) (c : NetConf)
    (hc : b.constructOk = true) (hs : b.run_startup = some c) :
    (DragonMultiFE.main args_map (b :: rest)).2 = .outOfFuel
    ∨ (DragonMultiFE.main args_map (b :: rest)).2
        = .exitCode .LAUNCHER_SUCCESS_EXIT
    ∨ (DragonMultiFE.main args_map (b :: rest)).2
        = .exitCode .LAUNCHER_FAIL_EXIT := by
  rcases hA : runAttempt b none with ⟨evs, out⟩
  cases out with
  | success c3 =>
    right; left
    simp [DragonMultiFE.main, mainLoop, hc, hA]
  | phaseFail n2 =>
    obtain ⟨m, rfl⟩ := runAttempt_startupOk_phaseFail_some b none c hs evs n2 hA
    cases hE : exceptHandler args_map (some b.resilient) (some m) with
    | abort =>
      right; right
      simp [DragonMultiFE.main, mainLoop, hc, hA, hE]
    | raiseErr e => exact absurd hE (exceptHandler_ne_raise args_map b.resilient m e)
    | retry =>
      simpa [DragonMultiFE.main, mainLoop, hc, hA, hE] using
        mainLoop_some_no_uncaught args_map rest m b.resilient

/-- Witness for C4 as amended: a fully successful single attempt returns
one of the listed results. -/
theorem c4_exit_status_witness :
    (DragonMultiFE.main ⟨false, 5⟩ [allOkB confOne]).2 = .outOfFuel
    ∨ (DragonMultiFE.main ⟨false, 5⟩ [allOkB confOne]).2
        = .exitCode .LAUNCHER_SUCCESS_EXIT
    ∨ (DragonMultiFE.main ⟨false, 5⟩ [allOkB confOne]).2
        = .exitCode .LAUNCHER_FAIL_EXIT :=
  c4_exit_status ⟨false, 5⟩ (allOkB confOne) [] confOne rfl rfl
